import Mathlib

/-!
Verification of the BOOST schema-validator backend (`backend/app.py`).

The Python source is shallowly embedded below.  Python strings are modelled
as Lean `String` (a packed `List Char`); the string primitives used by the
source (`split`, `replace`, `strip`, `startswith`, `lower`, `join`, `in`)
are defined structurally over the character list so that every definition is
executable by kernel reduction.  JSON documents are modelled by the `Json`
inductive; Python exceptions by `PyExc` and `Except`; filesystem reads are
passed in as `Except`/`Bool` parameters, since the repository code treats
them as opaque effect points.
-/

namespace BoostSpec

/-- JSON values, the data manipulated by the backend.  Numbers are modelled
as integers (all values appearing in the verified properties are integral). -/
inductive Json where
  | null : Json
  | bool (b : Bool) : Json
  | num (n : Int) : Json
  | str (s : String) : Json
  | arr (elems : List Json) : Json
  | obj (kvs : List (String × Json)) : Json

/-- Python exceptions, split the way `validate_entity`'s `except` clauses
split them: `FileNotFoundError` versus every other `Exception`. -/
inductive PyExc where
  | fileNotFound (msg : String) : PyExc
  | other (msg : String) : PyExc
  deriving DecidableEq

/-- `str(e)` of a Python exception: its message. -/
def PyExc.toMessage : PyExc → String
  | .fileNotFound m => m
  | .other m => m

/-! ## Python string primitives, structurally on `List Char` -/

/-- Python whitespace characters stripped by `str.strip()` (the ASCII ones;
all inputs in this development are ASCII). -/
def isPySpace (c : Char) : Bool :=
  c = ' ' || c = '\t' || c = '\n' || c = '\r'

/-- `str.strip()` on a character list. -/
def stripChars (l : List Char) : List Char :=
  ((l.dropWhile isPySpace).reverse.dropWhile isPySpace).reverse

/-- `str.strip()`. -/
def pyStrip (s : String) : String :=
  ⟨stripChars s.data⟩

/-- `str.startswith(p)`. -/
def pyStartswith (s p : String) : Bool :=
  p.data.isPrefixOf s.data

/-- Substring test, Python's `sub in s`. -/
def containsSub (l sub : List Char) : Bool :=
  sub.isPrefixOf l ||
    match l with
    | [] => false
    | _ :: t => containsSub t sub

/-- Python's `sub in s`. -/
def pyContains (s sub : String) : Bool :=
  containsSub s.data sub.data

/-- Helper for `str.split(sep)` with a one-character separator: Python keeps
empty segments. -/
def splitCharAux (sep : Char) : List Char → List Char → List (List Char)
  | [], acc => [acc.reverse]
  | c :: cs, acc =>
    if c = sep then acc.reverse :: splitCharAux sep cs []
    else splitCharAux sep cs (c :: acc)

/-- `str.split(sep)` for a one-character separator, on character lists. -/
def splitChar (sep : Char) (l : List Char) : List (List Char) :=
  splitCharAux sep l []

/-- `str.split(sep)` for a one-character separator. -/
def pySplitChar (sep : Char) (s : String) : List String :=
  (splitChar sep s.data).map String.mk

/-- `str.replace(old, new)` with fuel (the fuel is the input length, which
bounds the number of steps since every step consumes at least one
character). -/
def pyReplaceAux (old new : List Char) : Nat → List Char → List Char
  | _, [] => []
  | 0, s => s
  | fuel + 1, c :: rest =>
    if !old.isEmpty && old.isPrefixOf (c :: rest) then
      new ++ pyReplaceAux old new fuel ((c :: rest).drop old.length)
    else
      c :: pyReplaceAux old new fuel rest

/-- `str.replace(old, new)` (for non-empty `old`, the only use in the
source). -/
def pyReplace (s old new : String) : String :=
  ⟨pyReplaceAux old.data new.data s.data.length s.data⟩

/-- `str.lower()` (ASCII, as in the source's uses). -/
def pyLower (s : String) : String :=
  ⟨s.data.map Char.toLower⟩

/-- `sep.join(parts)`. -/
def pyJoin (sep : String) : List String → String
  | [] => ""
  | x :: xs => xs.foldl (fun acc y => acc ++ sep ++ y) x

/-! ## Entity name codec (`app.py` lines 30-32 and 38-39) -/

/-- One step of the directory-name comprehension in `load_entity_schema`:
`'_' + c.lower() if c.isupper() and i > 0 else c.lower()` for a character at
index `i > 0`. -/
def encChar (c : Char) : List Char :=
  if c.isUpper then ['_', c.toLower] else [c.toLower]

/-- The entity-name-to-directory-name transform of `load_entity_schema` (and
its verbatim copies in `get_entity_examples`, `get_entity_example`,
`get_entity_dictionary`, `validate_entity`): every character is lowercased,
and every uppercase character other than the first character is additionally
preceded by an underscore. -/
def toDirectoryName (s : String) : String :=
  match s.data with
  | [] => ""
  | c :: cs => ⟨c.toLower :: cs.flatMap encChar⟩

/-- Python `str.capitalize()` on a character list: first character
uppercased, the rest lowercased (ASCII). -/
def capitalizeChars : List Char → List Char
  | [] => []
  | c :: cs => c.toUpper :: cs.map Char.toLower

/-- The directory-name-to-entity-name transform of `get_available_entities`:
`''.join(word.capitalize() for word in item.name.split('_'))`. -/
def toEntityName (s : String) : String :=
  ⟨((splitChar '_' s.data).map capitalizeChars).flatten⟩

/-- No two consecutive uppercase characters (side condition of the
round-trip property of the codec). -/
def noConsecUpper : List Char → Bool
  | [] => true
  | [_] => true
  | a :: b :: t => !(a.isUpper && b.isUpper) && noConsecUpper (b :: t)

/-! ## Dictionary parser (`_parse_dictionary_markdown`, lines 124-193) -/

/-- `re.search(r'<td>([^<]+)', line)`: the first occurrence of `<td>`
followed by at least one non-`<` character; returns the captured group.
(After a failed empty-content candidate the next possible match starts
after the `<td>` marker, and a successful capture contains no `<`, so the
leftmost-match scan below agrees with the regex engine.) -/
def findTd : List Char → Option (List Char)
  | '<' :: 't' :: 'd' :: '>' :: rest =>
    let content := rest.takeWhile (fun c => c ≠ '<')
    if content.isEmpty then findTd rest else some content
  | _ :: rest => findTd rest
  | [] => none

/-- `re.findall(r'<th>([^<]+)', line)`: every `<th>`-marked cell text. -/
def findAllTh : List Char → List (List Char)
  | '<' :: 't' :: 'h' :: '>' :: rest =>
    let content := rest.takeWhile (fun c => c ≠ '<')
    if content.isEmpty then findAllTh rest else content :: findAllTh rest
  | _ :: rest => findAllTh rest
  | [] => []

/-- The inner row scan of `_parse_dictionary_markdown` (lines 162-173):
walk the lines following a `<tr>` line until one whose stripped form starts
with `</tr>`, extracting from every stripped-`<td>`-prefixed line its first
`<td>`-cell text, stripped and with backticks removed. -/
def collectRowCells : List String → List String
  | [] => []
  | l :: ls =>
    if pyStartswith (pyStrip l) "</tr>" then []
    else
      (if pyStartswith (pyStrip l) "<td>" then
        match findTd l.data with
        | some content => [pyReplace (pyStrip ⟨content⟩) "`" ""]
        | none => []
      else []) ++ collectRowCells ls

/-- The per-field record stored in the `fields` mapping. -/
structure FieldInfo where
  type : String
  required : Bool
  description : String
  examples : String
  deriving DecidableEq

/-- Python dict assignment `fields[k] = v`: overwrite in place if the key
exists, else append (insertion order preserved). -/
def dictInsert (m : List (String × FieldInfo)) (k : String) (v : FieldInfo) :
    List (String × FieldInfo) :=
  if m.any (fun p => p.1 = k) then m.map (fun p => if p.1 = k then (k, v) else p)
  else m ++ [(k, v)]

/-- Lines 175-188 of `_parse_dictionary_markdown`: store the collected row
cells as a field record only when at least 4 cells were extracted. -/
def processRow (fields : List (String × FieldInfo)) (field_data : List String) :
    List (String × FieldInfo) :=
  if 4 ≤ field_data.length then
    dictInsert fields (field_data.getD 0 "")
      ⟨field_data.getD 1 "",
        ["yes", "required", "true"].contains (pyLower (field_data.getD 2 "")),
        field_data.getD 3 "",
        if 4 < field_data.length then field_data.getD 4 "" else ""⟩
  else fields

/-- The mutable locals of `_parse_dictionary_markdown`. -/
structure ParserState where
  overview : String
  in_overview : Bool
  fields : List (String × FieldInfo)
  in_table : Bool
  table_headers : List String

/-- The line loop of `_parse_dictionary_markdown` (lines 137-188).  The
Python `continue` statements are the early recursive calls; the inner
`while` row scan reads the lines after the current one, which the outer
loop then revisits (no line is skipped), exactly as in the source. -/
def parseDictLines : ParserState → List String → ParserState
  | st, [] => st
  | st, line :: rest =>
    if pyStrip line = "### Overview" then
      parseDictLines { st with in_overview := true } rest
    else
      let st1 :=
        if pyStartswith line "###" && st.in_overview then
          { st with in_overview := false }
        else if st.in_overview && (pyStrip line != "") then
          { st with overview := st.overview ++ pyStrip line ++ " " }
        else st
      if pyContains line "<table class=\"data\">" then
        parseDictLines { st1 with in_table := true } rest
      else if pyContains line "</table>" then
        parseDictLines { st1 with in_table := false } rest
      else
        let st2 :=
          if st1.in_table && pyStartswith (pyStrip line) "<th>" then
            { st1 with table_headers := st1.table_headers ++ (findAllTh line.data).map String.mk }
          else if st1.in_table && pyStartswith (pyStrip line) "<tr>" then
            { st1 with fields := processRow st1.fields (collectRowCells rest) }
          else st1
        parseDictLines st2 rest

/-- Result of `get_entity_dictionary` / `_parse_dictionary_markdown`: the
parsed record, or the `{"error": ...}` record. -/
inductive DictResult where
  | ok (overview : String) (fields : List (String × FieldInfo)) : DictResult
  | error (msg : String) : DictResult
  deriving DecidableEq

/-- Whether the result is the `{"error": ...}` record. -/
def DictResult.isError : DictResult → Bool
  | .ok _ _ => false
  | .error _ => true

/-- `_parse_dictionary_markdown` (total: no parse step can fail). -/
def parse_dictionary_markdown (content : String) : DictResult :=
  let lines := pySplitChar '\n' content
  let final := parseDictLines ⟨"", false, [], false, []⟩ lines
  .ok (pyStrip final.overview) final.fields

/-- `get_entity_dictionary` (lines 107-122).  The filesystem is passed in:
`fileExists` is the `dictionary_file.exists()` probe and `readResult` the
outcome of opening and reading the file (which may raise). -/
def get_entity_dictionary (schema_root entity_name : String) (fileExists : Bool)
    (readResult : Except PyExc String) : DictResult :=
  let entity_dir := toDirectoryName entity_name
  let dictionary_file :=
    schema_root ++ "/" ++ entity_dir ++ "/" ++ entity_dir ++ "_dictionary.md"
  if !fileExists then
    .error ("Dictionary file not found: " ++ dictionary_file)
  else
    match readResult with
    | .error e => .error ("Error reading dictionary: " ++ e.toMessage)
    | .ok content => parse_dictionary_markdown content

/-! ## Python value rendering (f-string interpolation) -/

/-- Python `repr()` of a JSON value (string escaping elided; never exercised
on strings needing escapes here). -/
def pyRepr : Json → String
  | .null => "None"
  | .bool true => "True"
  | .bool false => "False"
  | .num n => toString n
  | .str s => "'" ++ s ++ "'"
  | .arr l => "[" ++ pyJoin ", " (l.attach.map (fun v => pyRepr v.1)) ++ "]"
  | .obj kvs =>
    "\x7b"
      ++ pyJoin ", " (kvs.attach.map (fun p => "'" ++ p.1.1 ++ "': " ++ pyRepr p.1.2))
      ++ "\x7d"
  decreasing_by
  · have h := List.sizeOf_lt_of_mem v.2
    simp only [Json.arr.sizeOf_spec]
    omega
  · have h := List.sizeOf_lt_of_mem p.2
    obtain ⟨⟨k, jv⟩, hmem⟩ := p
    simp only [Json.obj.sizeOf_spec]
    simp only [Prod.mk.sizeOf_spec] at h
    omega

/-- Python `str()` of a JSON value, as used by f-string interpolation. -/
def pyStr : Json → String
  | .str s => s
  | v => pyRepr v

/-! ## JSON helpers used by the source -/

/-- `d.get(k)` on a dict (`None`, i.e. `none`, when absent).  The embedded
code only calls it on dicts. -/
def jsonGet : Json → String → Option Json
  | .obj kvs, k => (kvs.find? (fun p => p.1 == k)).map (fun p => p.2)
  | _, _ => none

/-- Python truthiness of a JSON value. -/
def truthy : Json → Bool
  | .null => false
  | .bool b => b
  | .num n => n != 0
  | .str s => s != ""
  | .arr l => !l.isEmpty
  | .obj kvs => !kvs.isEmpty

/-- Python truthiness of a `d.get(k)` result (`None` is falsy). -/
def optTruthy : Option Json → Bool
  | none => false
  | some v => truthy v

/-- Elements of a JSON array (the `enum` keyword's value is always an
array in a well-formed schema). -/
def jsonElems : Json → List Json
  | .arr l => l
  | _ => []

/-- Is the value a JSON object? -/
def isObj : Json → Bool
  | .obj _ => true
  | _ => false

/-! ## Validation engine (`_format_validation_error` and `validate_entity`,
lines 195-398) -/

/-- The fields of a `jsonschema.ValidationError` consumed by
`_format_validation_error`: `absolute_path` (elements already passed
through `str`), `validator` (the failing keyword), `validator_value`,
`message`, and `instance`. -/
structure ValidationError where
  absolutePath : List String
  validator : String
  validatorValue : Json
  message : String
  instanceVal : Json

/-- The per-error dict built by `_format_validation_error`.  Keys absent
from a branch's dict are `none`. -/
structure ErrorDescriptor where
  type : String
  field : Option String
  message : String
  expected : Option Json := none
  actual_value : Option Json := none
  allowed_values : Option Json := none
  pattern : Option Json := none
  constraint : Option String := none
  value : Option Json := none
  expected_format : Option Json := none

/-- Line 198: the dotted field path of an error, or the literal `'root'`
when its absolute path is empty (Python truthiness of the deque). -/
def fieldPathOf (path : List String) : String :=
  if path.isEmpty then "root" else pyJoin "." path

/-- `_format_validation_error` (lines 195-302). -/
def format_validation_error (error : ValidationError) : ErrorDescriptor :=
  let field_path := fieldPathOf error.absolutePath
  let validator := error.validator
  let actual_value := error.instanceVal
  if validator = "required" then
    let missing_prop :=
      pyStrip (pyReplace (pyReplace error.message "'" "") " is a required property" "")
    let message :=
      if field_path = "root" then "Missing required field: '" ++ missing_prop ++ "'"
      else "Missing required field: '" ++ missing_prop ++ "' in " ++ field_path
    { type := "required", field := some missing_prop, message := message }
  else if validator = "type" then
    let expected_type := error.validatorValue
    let message :=
      if field_path = "root" then "Invalid type: expected " ++ pyStr expected_type
      else "Field '" ++ field_path ++ "': expected type " ++ pyStr expected_type
    { type := "type", field := some field_path, message := message,
      expected := some expected_type, actual_value := some actual_value }
  else if validator = "enum" then
    let allowed_values :=
      pyJoin ", " ((jsonElems error.validatorValue).map (fun v => "'" ++ pyStr v ++ "'"))
    let message :=
      if field_path = "root" then "Value must be one of: " ++ allowed_values
      else "Field '" ++ field_path ++ "': value must be one of: " ++ allowed_values
    { type := "enum", field := some field_path, message := message,
      allowed_values := some error.validatorValue, actual_value := some actual_value }
  else if validator = "pattern" then
    let patternValue := error.validatorValue
    let message :=
      "Field '" ++ field_path ++ "': value does not match required pattern '"
        ++ pyStr patternValue ++ "'"
    { type := "pattern", field := some field_path, message := message,
      pattern := some patternValue, actual_value := some actual_value }
  else if validator = "minLength" ∨ validator = "maxLength"
      ∨ validator = "minimum" ∨ validator = "maximum" then
    let constraint_value := error.validatorValue
    let message :=
      if validator = "minLength" then
        "Field '" ++ field_path ++ "': must be at least " ++ pyStr constraint_value
          ++ " characters long"
      else if validator = "maxLength" then
        "Field '" ++ field_path ++ "': must be at most " ++ pyStr constraint_value
          ++ " characters long"
      else if validator = "minimum" then
        "Field '" ++ field_path ++ "': value must be at least " ++ pyStr constraint_value
      else
        "Field '" ++ field_path ++ "': value must be at most " ++ pyStr constraint_value
    { type := "constraint", field := some field_path, message := message,
      constraint := some validator, value := some constraint_value }
  else if validator = "format" then
    let expected_format := error.validatorValue
    let message :=
      "Field '" ++ field_path ++ "': must be a valid " ++ pyStr expected_format
    { type := "format", field := some field_path, message := message,
      expected_format := some expected_format }
  else
    let message_lines := pySplitChar '\n' error.message
    let clean_message := match message_lines with | [] => error.message | l :: _ => l
    let message :=
      if field_path = "root" then clean_message
      else "Field '" ++ field_path ++ "': " ++ clean_message
    { type := "other",
      field := if field_path ≠ "root" then some field_path else none,
      message := message }

/-- The `errors_by_type` dict of `validate_entity`, whose keys are fixed at
initialization (line 319-327). -/
structure ErrorsByType where
  required : List ErrorDescriptor
  format : List ErrorDescriptor
  pattern : List ErrorDescriptor
  enum : List ErrorDescriptor
  type : List ErrorDescriptor
  constraint : List ErrorDescriptor
  other : List ErrorDescriptor

/-- The freshly initialized `errors_by_type` dict. -/
def emptyErrorsByType : ErrorsByType := ⟨[], [], [], [], [], [], []⟩

/-- Dict lookup on `errors_by_type`. -/
def ErrorsByType.get? (ebt : ErrorsByType) (k : String) : Option (List ErrorDescriptor) :=
  if k = "required" then some ebt.required
  else if k = "format" then some ebt.format
  else if k = "pattern" then some ebt.pattern
  else if k = "enum" then some ebt.enum
  else if k = "type" then some ebt.type
  else if k = "constraint" then some ebt.constraint
  else if k = "other" then some ebt.other
  else none

/-- The keys of the `errors_by_type` dict, in initialization order
(lines 319-327). -/
def errorTypeKeys : List String :=
  ["required", "format", "pattern", "enum", "type", "constraint", "other"]

/-- Lines 333-338: append the formatted error to the bucket named by its
`type` when that key exists in the dict, else to `other`. -/
def addToBucket (ebt : ErrorsByType) (d : ErrorDescriptor) : ErrorsByType :=
  if d.type = "required" then { ebt with required := ebt.required ++ [d] }
  else if d.type = "format" then { ebt with format := ebt.format ++ [d] }
  else if d.type = "pattern" then { ebt with pattern := ebt.pattern ++ [d] }
  else if d.type = "enum" then { ebt with enum := ebt.enum ++ [d] }
  else if d.type = "type" then { ebt with type := ebt.type ++ [d] }
  else if d.type = "constraint" then { ebt with constraint := ebt.constraint ++ [d] }
  else { ebt with other := ebt.other ++ [d] }

/-- An element of the heterogeneous `errors` list of a validation result:
a formatted descriptor on the schema-violation path, a plain string on
every other path. -/
inductive ErrItem where
  | desc (d : ErrorDescriptor) : ErrItem
  | str (s : String) : ErrItem

/-- The dict returned by `validate_entity`; `errors_by_type := none` models
the paths whose returned dict has no `errors_by_type` key. -/
structure ValidationResult where
  valid : Bool
  schema_valid : Bool
  business_rules_valid : Bool
  errors : List ErrItem
  errors_by_type : Option ErrorsByType
  message : String

/-- The two `except` clauses of `validate_entity` (lines 383-398). -/
def exception_result : PyExc → ValidationResult
  | .fileNotFound m =>
    { valid := false, schema_valid := false, business_rules_valid := false,
      errors := [.str ("Schema not found: " ++ m)], errors_by_type := none,
      message := "Schema file not found" }
  | .other m =>
    { valid := false, schema_valid := false, business_rules_valid := false,
      errors := [.str ("Validation error: " ++ m)], errors_by_type := none,
      message := "Validation error" }

/-- `schema.get('required', [])` (line 365); a non-array value would raise
in the Python loop, inside the inner `try`, and never occurs. -/
def requiredFieldsOf (schema : Json) : List Json :=
  match jsonGet schema "required" with
  | some (.arr l) => l
  | _ => []

/-- Line 367: `field not in test_data or test_data[field] is None or
test_data[field] == ""` (a non-string required entry is never a key of the
dict, so its membership test is false). -/
def businessCheckFails (test_data : Json) (fieldv : Json) : Bool :=
  match fieldv with
  | .str s =>
    match jsonGet test_data s with
    | none => true
    | some .null => true
    | some (.str "") => true
    | some _ => false
  | _ => true

/-- The business-rules block of `validate_entity` (lines 350-374): re-read
the full schema file (`readFullSchema` is the outcome of that read), and
when it has a truthy `rules` key, re-check every required field for
presence and non-emptiness.  Returns the `business_rules_valid` flag and
the `business_errors` strings. -/
def business_rule_errors (schema test_data : Json)
    (readFullSchema : Except PyExc Json) : Bool × List String :=
  match readFullSchema with
  | .error e => (true, ["Business rule check error: " ++ e.toMessage])
  | .ok full_schema =>
    if optTruthy (jsonGet full_schema "rules") then
      let r := (requiredFieldsOf schema).foldl
        (fun acc fieldv =>
          if businessCheckFails test_data fieldv then
            (false, acc.2 ++ ["Required field '" ++ pyStr fieldv ++ "' is missing or empty"])
          else acc)
        (true, ([] : List String))
      (r.1, r.2 ++ ["Note: Advanced business rule validation temporarily disabled"])
    else (true, [])

/-- `validate_entity` (lines 304-398).  The effect points are parameters:
`loadSchema` is the outcome of `load_entity_schema` (which may raise
`FileNotFoundError` or a JSON parse error), `iterErrors` the Draft-7
validator's `iter_errors` (which may itself raise), and `readFullSchema`
the business-rules re-read of the schema file. -/
def validate_entity (loadSchema : Except PyExc Json)
    (iterErrors : Json → Json → Except PyExc (List ValidationError))
    (readFullSchema : Except PyExc Json) (test_data : Json) : ValidationResult :=
  match loadSchema with
  | .error e => exception_result e
  | .ok schema =>
    match iterErrors schema test_data with
    | .error e => exception_result e
    | .ok validation_errors =>
      if !validation_errors.isEmpty then
        let acc := validation_errors.foldl
          (fun acc err =>
            let formatted_error := format_validation_error err
            (acc.1 ++ [formatted_error], addToBucket acc.2 formatted_error))
          (([] : List ErrorDescriptor), emptyErrorsByType)
        { valid := false, schema_valid := false, business_rules_valid := false,
          errors := acc.1.map ErrItem.desc, errors_by_type := some acc.2,
          message := "Schema validation failed" }
      else
        let br := business_rule_errors schema test_data readFullSchema
        { valid := true, schema_valid := true, business_rules_valid := br.1,
          errors := br.2.map ErrItem.str, errors_by_type := none,
          message :=
            if br.1 then "Validation successful"
            else "Schema valid but business rules failed" }

/-! ## A concrete Draft-7 validator instance for the `required` keyword

`jsonschema` is an external library; the concrete validations below
exercise only its `required` keyword, modelled here after its Draft-7 behaviour:
on an object instance, one error per missing property, in the order of the
`required` array, with message `"{prop!r} is a required property"`, an
empty path, and the array as `validator_value`. -/

def requiredKeywordErrors (props : List Json) (data : Json) : List ValidationError :=
  if isObj data then
    props.flatMap (fun p =>
      match p with
      | .str s =>
        if (jsonGet data s).isNone then
          [⟨[], "required", .arr props, "'" ++ s ++ "' is a required property", data⟩]
        else []
      | _ => [])
  else []

/-- `Draft7Validator(schema).iter_errors(data)` restricted to the
`required` keyword: schema keywords are visited in dict order; keywords
other than `required` contribute no errors in this model. -/
def draft7IterErrors (schema data : Json) : List ValidationError :=
  match schema with
  | .obj kvs =>
    kvs.flatMap (fun kv =>
      match kv with
      | ("required", .arr props) => requiredKeywordErrors props data
      | _ => [])
  | _ => []

/-! ## `get_available_entities` (lines 24-33) -/

/-- What `get_available_entities` observes about one entry of
`schema_root.iterdir()`: its name, whether it is a directory, and whether
it contains a `validation_schema.json` file. -/
structure DirEntry where
  name : String
  isDir : Bool
  hasValidationSchema : Bool

/-- Python `sorted` on strings (stable; equal strings are identical, so
any correct sort has the same value). -/
def pySorted (l : List String) : List String :=
  l.insertionSort (· ≤ ·)

/-- `get_available_entities`: the PascalCase names of the schema-bearing
immediate subdirectories, sorted. -/
def get_available_entities (rootExists : Bool) (items : List DirEntry) : List String :=
  let entities :=
    if rootExists then
      (items.filter (fun it => it.isDir && it.hasValidationSchema)).map
        (fun it => toEntityName it.name)
    else []
  pySorted entities

/-! ## The `POST /api/validate` route handler (lines 461-476) -/

/-- The JSON body of the route's response: a validation result or an
`{"error": ...}` record. -/
inductive RouteBody where
  | result (r : ValidationResult) : RouteBody
  | error (msg : String) : RouteBody

/-- A Flask `(body, status)` response. -/
structure RouteResponse where
  body : RouteBody
  status : Nat

/-- The `validate_entity` route handler.  `getJson` is the outcome of
`request.get_json()`; a non-dict body makes `data.get` raise
`AttributeError`, caught by the handler's `except` into a 500 (message
shown for the `None` body case). -/
def validate_route (getJson : Except PyExc Json)
    (loadSchema : Except PyExc Json)
    (iterErrors : Json → Json → Except PyExc (List ValidationError))
    (readFullSchema : Except PyExc Json) : RouteResponse :=
  match getJson with
  | .error e => ⟨.error e.toMessage, 500⟩
  | .ok data =>
    match data with
    | .obj _ =>
      let entity_name := jsonGet data "entity_name"
      let test_data := jsonGet data "test_data"
      if !optTruthy entity_name || !optTruthy test_data then
        ⟨.error "Missing entity_name or test_data", 400⟩
      else
        ⟨.result (validate_entity loadSchema iterErrors readFullSchema
          (test_data.getD .null)), 200⟩
    | _ => ⟨.error "'NoneType' object has no attribute 'get'", 500⟩

/-! ## Character-level facts used by the codec round-trip proof -/

theorem uint32_le_iff_toNat {a b : UInt32} : a ≤ b ↔ a.toNat ≤ b.toNat := by
  rw [UInt32.le_def, BitVec.le_def]; rfl

theorem char_toNat_ofNat (n : Nat) (h : n.isValidChar) : (Char.ofNat n).toNat = n := by
  rw [Char.ofNat, dif_pos h]; rfl

theorem isUpper_toNat {c : Char} (h : c.isUpper = true) : 65 ≤ c.toNat ∧ c.toNat ≤ 90 := by
  simp [Char.isUpper] at h
  exact ⟨uint32_le_iff_toNat.mp h.1, uint32_le_iff_toNat.mp h.2⟩

theorem isLower_toNat {c : Char} (h : c.isLower = true) : 97 ≤ c.toNat ∧ c.toNat ≤ 122 := by
  simp [Char.isLower] at h
  exact ⟨uint32_le_iff_toNat.mp h.1, uint32_le_iff_toNat.mp h.2⟩

theorem not_isUpper_toNat {c : Char} (h : c.isUpper = false) :
    ¬(65 ≤ c.toNat ∧ c.toNat ≤ 90) := by
  intro hc
  have : c.isUpper = true := by
    simp [Char.isUpper]
    exact ⟨uint32_le_iff_toNat.mpr hc.1, uint32_le_iff_toNat.mpr hc.2⟩
  rw [h] at this; exact Bool.noConfusion this

theorem toLower_toNat_of_upper {c : Char} (h : c.isUpper = true) :
    (Char.toLower c).toNat = c.toNat + 32 := by
  obtain ⟨h1, h2⟩ := isUpper_toNat h
  rw [Char.toLower, if_pos (by omega)]
  exact char_toNat_ofNat _ (Or.inl (by omega))

theorem toUpper_toLower_of_upper {c : Char} (h : c.isUpper = true) :
    c.toLower.toUpper = c := by
  obtain ⟨h1, h2⟩ := isUpper_toNat h
  have hl := toLower_toNat_of_upper h
  rw [Char.toUpper, if_pos (by omega), hl]
  have he : c.toNat + 32 - 32 = c.toNat := by omega
  rw [he, Char.ofNat_toNat]

theorem toLower_of_not_upper {c : Char} (h : c.isUpper = false) : c.toLower = c := by
  have := not_isUpper_toNat h
  rw [Char.toLower, if_neg (by omega)]

theorem toLower_ne_underscore {c : Char} (h : c.isAlpha = true) : c.toLower ≠ '_' := by
  intro heq
  have h95 : c.toLower.toNat = 95 := by rw [heq]; rfl
  simp [Char.isAlpha] at h
  rcases h with h | h
  · rw [toLower_toNat_of_upper h] at h95
    have := isUpper_toNat h
    omega
  · have hnu : c.isUpper = false := by
      rcases hb : c.isUpper with _ | _
      · rfl
      · have := isUpper_toNat hb
        have := isLower_toNat h
        omega
    rw [toLower_of_not_upper hnu] at h95
    have := isLower_toNat h
    omega

theorem alpha_ne_underscore {c : Char} (h : c.isAlpha = true) : c ≠ '_' := by
  intro heq
  have h95 : c.toNat = 95 := by rw [heq]; rfl
  simp [Char.isAlpha] at h
  rcases h with h | h
  · have := isUpper_toNat h; omega
  · have := isLower_toNat h; omega

theorem capitalizeChars_append_lower (a : Char) (as : List Char) {c : Char}
    (h : c.isUpper = false) :
    capitalizeChars ((a :: as) ++ [c]) = capitalizeChars (a :: as) ++ [c] := by
  simp [capitalizeChars, toLower_of_not_upper h]

/-- Key lemma for the round-trip: splitting the encoded tail on underscores
and re-capitalizing restores the tail, with the pending segment `acc`
(reversed) capitalized in front. -/
theorem split_capitalize_flatMap_encChar (cs : List Char)
    (hall : ∀ x ∈ cs, x.isAlpha = true) :
    ∀ acc : List Char, acc ≠ [] →
      ((splitCharAux '_' (cs.flatMap encChar) acc).map capitalizeChars).flatten
        = capitalizeChars acc.reverse ++ cs := by
  induction cs with
  | nil =>
    intro acc _
    simp [splitCharAux]
  | cons c cs ih =>
    intro acc hacc
    have hc : c.isAlpha = true := hall c (List.mem_cons_self c cs)
    have hall' : ∀ x ∈ cs, x.isAlpha = true := fun x hx => hall x (List.mem_cons_of_mem c hx)
    rcases hu : c.isUpper with _ | _
    · -- lowercase (or non-upper) character: extends the current segment
      have henc : encChar c = [c] := by
        simp [encChar, hu, toLower_of_not_upper hu]
      have hne : c ≠ '_' := alpha_ne_underscore hc
      have hfm : (c :: cs).flatMap encChar = c :: cs.flatMap encChar := by
        rw [List.flatMap_cons, henc]; rfl
      rw [hfm]
      rw [show splitCharAux '_' (c :: cs.flatMap encChar) acc
            = splitCharAux '_' (cs.flatMap encChar) (c :: acc) by
          simp [splitCharAux, if_neg hne]]
      rw [ih hall' (c :: acc) (by simp)]
      obtain ⟨a, as, ha⟩ : ∃ a as, acc.reverse = a :: as := by
        rcases hr : acc.reverse with _ | ⟨a, as⟩
        · exact absurd (by simpa using congrArg List.reverse hr) hacc
        · exact ⟨a, as, rfl⟩
      rw [List.reverse_cons, ha, capitalizeChars_append_lower a as hu]
      simp [ha]
    · -- uppercase character: closes the segment and starts a new one
      have henc : encChar c = ['_', c.toLower] := by simp [encChar, hu]
      have hne : c.toLower ≠ '_' := toLower_ne_underscore hc
      have hfm : (c :: cs).flatMap encChar = '_' :: c.toLower :: cs.flatMap encChar := by
        rw [List.flatMap_cons, henc]; rfl
      rw [hfm]
      rw [show splitCharAux '_' ('_' :: c.toLower :: cs.flatMap encChar) acc
            = acc.reverse :: splitCharAux '_' (cs.flatMap encChar) [c.toLower] by
          simp [splitCharAux, if_neg hne]]
      rw [List.map_cons, List.flatten_cons, ih hall' [c.toLower] (by simp)]
      simp [capitalizeChars, toUpper_toLower_of_upper hu]

/-- **C3.** For every PascalCase entity name of ASCII letters only (no
digits, no two consecutive uppercase letters), the directory-name transform
of `load_entity_schema` followed by the entity-name transform of
`get_available_entities` is the identity. -/
theorem entity_name_codec_round_trip (s : String) (c : Char) (cs : List Char)
    (hdata : s.data = c :: cs) (hc : c.isUpper = true)
    (hall : ∀ x ∈ cs, x.isAlpha = true)
    (_hchain : noConsecUpper (c :: cs) = true) :
    toEntityName (toDirectoryName s) = s := by
  have halpha : c.isAlpha = true := by simp [Char.isAlpha, hc]
  have hlow_ne : c.toLower ≠ '_' := toLower_ne_underscore halpha
  have hdir : toDirectoryName s = ⟨c.toLower :: cs.flatMap encChar⟩ := by
    unfold toDirectoryName
    rw [hdata]
  rw [hdir]
  unfold toEntityName
  have hdata2 : (String.mk (c.toLower :: cs.flatMap encChar)).data
      = c.toLower :: cs.flatMap encChar := rfl
  rw [hdata2]
  unfold splitChar
  rw [show splitCharAux '_' (c.toLower :: cs.flatMap encChar) []
        = splitCharAux '_' (cs.flatMap encChar) [c.toLower] by
      simp [splitCharAux, if_neg hlow_ne]]
  rw [split_capitalize_flatMap_encChar cs hall [c.toLower] (by simp)]
  have hcap : capitalizeChars ([c.toLower].reverse) ++ cs = c :: cs := by
    simp [capitalizeChars, toUpper_toLower_of_upper hc]
  rw [hcap, ← hdata]

/-- Witness for C3 at the name `TraceableUnit`: the hypotheses hold and the
round trip is the identity. -/
theorem entity_name_codec_round_trip_witness :
    ("TraceableUnit".data = 'T' :: "raceableUnit".data
        ∧ ('T').isUpper = true
        ∧ (∀ x ∈ "raceableUnit".data, x.isAlpha = true)
        ∧ noConsecUpper ('T' :: "raceableUnit".data) = true)
      ∧ toEntityName (toDirectoryName "TraceableUnit") = "TraceableUnit" :=
  ⟨⟨by decide, by decide, by decide, by decide⟩,
    entity_name_codec_round_trip "TraceableUnit" 'T' "raceableUnit".data
      (by decide) (by decide) (by decide) (by decide)⟩

/-! ## C1: the schema-violation result of `validate_entity` -/

/-- Every descriptor produced by `_format_validation_error` carries one of
the seven bucket keys as its `type`. -/
theorem format_validation_error_type_mem (e : ValidationError) :
    (format_validation_error e).type ∈ errorTypeKeys := by
  unfold format_validation_error
  simp only [apply_ite ErrorDescriptor.type]
  split_ifs <;> simp [errorTypeKeys]

/-- One `addToBucket` step changes exactly the bucket named by the
descriptor's `type` (for descriptors whose type is one of the keys). -/
theorem addToBucket_get? (ebt : ErrorsByType) (d : ErrorDescriptor)
    (hd : d.type ∈ errorTypeKeys) (k : String) (hk : k ∈ errorTypeKeys) :
    (addToBucket ebt d).get? k
      = (ebt.get? k).map (fun cur => cur ++ if d.type = k then [d] else []) := by
  simp only [errorTypeKeys, List.mem_cons, List.not_mem_nil, or_false] at hd hk
  rcases hk with rfl | rfl | rfl | rfl | rfl | rfl | rfl <;>
    rcases hd with h | h | h | h | h | h | h <;>
      simp [addToBucket, ErrorsByType.get?, h]

/-- Folding `addToBucket` over a descriptor list fills each bucket with
exactly the descriptors of that type, in order. -/
theorem foldl_addToBucket_get? (ds : List ErrorDescriptor)
    (hds : ∀ d ∈ ds, d.type ∈ errorTypeKeys) (k : String) (hk : k ∈ errorTypeKeys) :
    ∀ ebt : ErrorsByType,
      (ds.foldl addToBucket ebt).get? k
        = (ebt.get? k).map (fun cur => cur ++ ds.filter (fun d => d.type = k)) := by
  induction ds with
  | nil =>
    intro ebt
    cases h : ebt.get? k <;> simp [h]
  | cons d ds ih =>
    intro ebt
    rw [List.foldl_cons,
      ih (fun x hx => hds x (List.mem_cons_of_mem d hx)) (addToBucket ebt d),
      addToBucket_get? ebt d (hds d (List.mem_cons_self d ds)) k hk]
    cases o : ebt.get? k
    · simp
    · by_cases hc : d.type = k <;> simp [hc, List.filter_cons]

/-- The error-collecting loop of `validate_entity` (lines 329-338), as a
fold: it appends one formatted descriptor per raw error to the flat list
and buckets each one. -/
theorem validate_fold_spec (errs : List ValidationError) :
    ∀ (l : List ErrorDescriptor) (ebt : ErrorsByType),
      errs.foldl
          (fun acc err =>
            (acc.1 ++ [format_validation_error err],
              addToBucket acc.2 (format_validation_error err)))
          (l, ebt)
        = (l ++ errs.map format_validation_error,
            (errs.map format_validation_error).foldl addToBucket ebt) := by
  induction errs with
  | nil => intro l ebt; simp
  | cons e errs ih =>
    intro l ebt
    rw [List.foldl_cons, List.map_cons, List.foldl_cons]
    rw [ih (l ++ [format_validation_error e]) (addToBucket ebt (format_validation_error e))]
    simp

/-- **C1.** When the schema loads and the Draft-7 validator reports at
least one violation, `validate_entity` returns
`valid=false, schema_valid=false, business_rules_valid=false`,
message `"Schema validation failed"`, the flat `errors` list holding one
formatted descriptor per raw violation in iteration order, and an
`errors_by_type` dict in which each bucket holds exactly the descriptors
of its category, in order. -/
theorem validate_entity_schema_violation_result
    (schema test_data : Json)
    (iterErrors : Json → Json → Except PyExc (List ValidationError))
    (readFullSchema : Except PyExc Json)
    (errs : List ValidationError) (r : ValidationResult)
    (hiter : iterErrors schema test_data = .ok errs)
    (hne : errs ≠ [])
    (hr : r = validate_entity (.ok schema) iterErrors readFullSchema test_data) :
    r.valid = false ∧ r.schema_valid = false ∧ r.business_rules_valid = false
      ∧ r.message = "Schema validation failed"
      ∧ r.errors = (errs.map format_validation_error).map ErrItem.desc
      ∧ ∃ ebt, r.errors_by_type = some ebt
          ∧ ∀ k ∈ errorTypeKeys,
              ebt.get? k
                = some ((errs.map format_validation_error).filter (fun d => d.type = k)) := by
  subst hr
  rcases errs with _ | ⟨e, es⟩
  · exact absurd rfl hne
  simp only [validate_entity, hiter, List.isEmpty_cons, Bool.not_false]
  rw [validate_fold_spec (e :: es) [] emptyErrorsByType]
  refine ⟨rfl, rfl, rfl, rfl, by simp, ?_⟩
  refine ⟨((e :: es).map format_validation_error).foldl addToBucket emptyErrorsByType, rfl, ?_⟩
  intro k hk
  rw [foldl_addToBucket_get? ((e :: es).map format_validation_error)
    (by intro d hd
        obtain ⟨x, _, rfl⟩ := List.mem_map.mp hd
        exact format_validation_error_type_mem x)
    k hk emptyErrorsByType]
  have hempty : emptyErrorsByType.get? k = some [] := by
    simp only [errorTypeKeys, List.mem_cons, List.not_mem_nil, or_false] at hk
    rcases hk with rfl | rfl | rfl | rfl | rfl | rfl | rfl <;> rfl
  rw [hempty]
  simp

/-- Witness for C1: a schema requiring `a` and `b` against the empty
object, through the concrete Draft-7 `required` model. -/
theorem validate_entity_schema_violation_result_witness :
    (validate_entity (.ok (Json.obj [("required", Json.arr [Json.str "a", Json.str "b"])]))
          (fun s d => .ok (draft7IterErrors s d)) (.ok (.obj [])) (.obj [])).message
        = "Schema validation failed"
      ∧ (validate_entity (.ok (Json.obj [("required", Json.arr [Json.str "a", Json.str "b"])]))
          (fun s d => .ok (draft7IterErrors s d)) (.ok (.obj [])) (.obj [])).valid = false := by
  have h := validate_entity_schema_violation_result
    (Json.obj [("required", Json.arr [Json.str "a", Json.str "b"])]) (.obj [])
    (fun s d => .ok (draft7IterErrors s d)) (.ok (.obj []))
    (draft7IterErrors (Json.obj [("required", Json.arr [Json.str "a", Json.str "b"])]) (.obj []))
    _ rfl (by intro hcontra; exact List.noConfusion hcontra) rfl
  exact ⟨h.2.2.2.1, h.1⟩

/-! ## C2: `required`-keyword errors on concrete schemas -/

/-- **C2.** Against a schema whose `required` array is `["a", "b"]`:
`{"a": 1}` yields exactly one `required`-category error naming `b`; `{}`
yields two `required` errors, one per missing field, and the `required`
bucket of `errors_by_type` has length 2. -/
theorem required_category_errors_concrete :
    (validate_entity (.ok (Json.obj [("required", Json.arr [Json.str "a", Json.str "b"])]))
          (fun s d => .ok (draft7IterErrors s d)) (.ok (Json.obj []))
          (Json.obj [("a", Json.num 1)])).errors
        = [.desc ⟨"required", some "b", "Missing required field: 'b'",
            none, none, none, none, none, none, none⟩]
    ∧ (validate_entity (.ok (Json.obj [("required", Json.arr [Json.str "a", Json.str "b"])]))
          (fun s d => .ok (draft7IterErrors s d)) (.ok (Json.obj [])) (Json.obj [])).errors
        = [.desc ⟨"required", some "a", "Missing required field: 'a'",
            none, none, none, none, none, none, none⟩,
           .desc ⟨"required", some "b", "Missing required field: 'b'",
            none, none, none, none, none, none, none⟩]
    ∧ ((validate_entity (.ok (Json.obj [("required", Json.arr [Json.str "a", Json.str "b"])]))
          (fun s d => .ok (draft7IterErrors s d)) (.ok (Json.obj []))
          (Json.obj [])).errors_by_type.map
            (fun ebt => (ebt.get? "required").map List.length))
        = some (some 2) :=
  ⟨rfl, rfl, rfl⟩

/-! ## C4: the `type`-error message -/

/-- **C4 (counterexample).** A `type` violation at the instance root is
rendered `"Invalid type: expected <expected>"`, not
`"Field 'root': expected type <expected>"` as the claim states. -/
theorem type_error_root_message_counterexample :
    (format_validation_error
          ⟨[], "type", .str "object", "1 is not of type 'object'", .num 1⟩).message
        = "Invalid type: expected object"
      ∧ ¬((format_validation_error
          ⟨[], "type", .str "object", "1 is not of type 'object'", .num 1⟩).message
          = "Field 'root': expected type object") :=
  ⟨rfl, by decide⟩

/-- **C4 (amended).** For a `type` violation, the descriptor has category
`type`, carries the expected type, and its message is
`"Field '<path>': expected type <expected>"` whenever the rendered field
path differs from `"root"`, and `"Invalid type: expected <expected>"` when
the rendered field path is `"root"`. -/
theorem type_error_message (e : ValidationError) (hv : e.validator = "type") :
    (format_validation_error e).type = "type"
    ∧ (format_validation_error e).expected = some e.validatorValue
    ∧ (format_validation_error e).message
        = (if fieldPathOf e.absolutePath = "root" then
            "Invalid type: expected " ++ pyStr e.validatorValue
          else
            "Field '" ++ fieldPathOf e.absolutePath ++ "': expected type "
              ++ pyStr e.validatorValue) := by
  refine ⟨?_, ?_, ?_⟩ <;>
    · unfold format_validation_error
      rw [hv]
      simp

/-- Witness for C4's amended claim at a non-root path. -/
theorem type_error_message_witness :
    (format_validation_error
          ⟨["items", "0"], "type", Json.str "string", "msg", Json.num 1⟩).message
      = "Field 'items.0': expected type string" := by
  have h := type_error_message
    ⟨["items", "0"], "type", Json.str "string", "msg", Json.num 1⟩ rfl
  rw [h.2.2]
  rfl

/-! ## C5: the shape of validation results across paths -/

/-- **C5 (counterexample).** The schema-not-found result has no
`errors_by_type` key and its `errors` entry is a plain string, not an
ErrorDescriptor record. -/
theorem validation_result_schema_missing_shape :
    (validate_entity (.error (.fileNotFound "nofile"))
          (fun s d => .ok (draft7IterErrors s d)) (.ok (Json.obj []))
          (Json.obj [])).errors_by_type = none
    ∧ (validate_entity (.error (.fileNotFound "nofile"))
          (fun s d => .ok (draft7IterErrors s d)) (.ok (Json.obj []))
          (Json.obj [])).errors
        = [.str "Schema not found: nofile"] :=
  ⟨rfl, rfl⟩

/-- **C5 (amended).** A result of `validate_entity` carries an
`errors_by_type` mapping exactly on the schema-violation path, and there
all `errors` entries are descriptor records; on every other path (success,
missing schema, unexpected exception) the result has no `errors_by_type`
key and its `errors` entries are plain strings. -/
theorem validation_result_shape (loadSchema : Except PyExc Json)
    (iterErrors : Json → Json → Except PyExc (List ValidationError))
    (readFullSchema : Except PyExc Json) (test_data : Json) :
    ((validate_entity loadSchema iterErrors readFullSchema test_data).errors_by_type.isSome = true
        ↔ ∃ schema errs, loadSchema = .ok schema
            ∧ iterErrors schema test_data = .ok errs ∧ errs ≠ [])
    ∧ ((validate_entity loadSchema iterErrors readFullSchema test_data).errors_by_type.isSome = true →
        ∀ it ∈ (validate_entity loadSchema iterErrors readFullSchema test_data).errors,
          ∃ d, it = ErrItem.desc d)
    ∧ ((validate_entity loadSchema iterErrors readFullSchema test_data).errors_by_type = none →
        ∀ it ∈ (validate_entity loadSchema iterErrors readFullSchema test_data).errors,
          ∃ s, it = ErrItem.str s) := by
  rcases loadSchema with e | schema
  · refine ⟨?_, ?_, ?_⟩
    · rcases e <;> simp [validate_entity, exception_result]
    · rcases e <;> simp [validate_entity, exception_result]
    · rcases e <;> simp [validate_entity, exception_result]
  · rcases hi : iterErrors schema test_data with e | errs
    · refine ⟨?_, ?_, ?_⟩
      · rcases e <;> simp [validate_entity, hi, exception_result]
      · rcases e <;> simp [validate_entity, hi, exception_result]
      · rcases e <;> simp [validate_entity, hi, exception_result]
    · rcases errs with _ | ⟨e0, es⟩
      · refine ⟨?_, ?_, ?_⟩
        · simp [validate_entity, hi]
        · simp [validate_entity, hi]
        · intro _ it hit
          simp only [validate_entity, hi] at hit
          simp at hit
          obtain ⟨s, _, rfl⟩ := hit
          exact ⟨s, rfl⟩
      · refine ⟨?_, ?_, ?_⟩
        · constructor
          · intro _
            exact ⟨schema, e0 :: es, rfl, hi, List.cons_ne_nil e0 es⟩
          · intro _
            simp [validate_entity, hi]
        · intro _ it hit
          simp only [validate_entity, hi] at hit
          simp at hit
          obtain ⟨d, _, rfl⟩ := hit
          exact ⟨d, rfl⟩
        · intro hnone
          simp [validate_entity, hi] at hnone

/-- Witness for C5's amended claim: a violating call carries
`errors_by_type`. -/
theorem validation_result_shape_witness :
    (validate_entity (.ok (Json.obj [("required", Json.arr [Json.str "a"])]))
        (fun s d => .ok (draft7IterErrors s d)) (.ok (Json.obj []))
        (Json.obj [])).errors_by_type.isSome = true :=
  (validation_result_shape _ _ _ _).1.mpr
    ⟨Json.obj [("required", Json.arr [Json.str "a"])],
      [⟨[], "required", Json.arr [Json.str "a"],
        "'a' is a required property", Json.obj []⟩],
      rfl, rfl, List.cons_ne_nil _ _⟩

/-! ## C6: dictionary row acceptance -/

/-- **C6.** A table row enters the fields mapping exactly when it yielded
at least 4 cells, which map positionally to name, type,
required-indicator, description and optional examples; the required flag
is true exactly when the lowercased third cell is `yes`, `required` or
`true`; a missing 5th cell leaves `examples` empty. -/
theorem dictionary_row_acceptance (fields : List (String × FieldInfo))
    (field_data : List String) :
    (field_data.length < 4 → processRow fields field_data = fields)
    ∧ (4 ≤ field_data.length →
        processRow fields field_data
          = dictInsert fields (field_data.getD 0 "")
              ⟨field_data.getD 1 "",
                ["yes", "required", "true"].contains (pyLower (field_data.getD 2 "")),
                field_data.getD 3 "",
                if 4 < field_data.length then field_data.getD 4 "" else ""⟩)
    ∧ (["yes", "required", "true"].contains (pyLower (field_data.getD 2 "")) = true
        ↔ pyLower (field_data.getD 2 "") = "yes"
          ∨ pyLower (field_data.getD 2 "") = "required"
          ∨ pyLower (field_data.getD 2 "") = "true") := by
  refine ⟨?_, ?_, ?_⟩
  · intro h
    unfold processRow
    rw [if_neg (by omega)]
  · intro h
    unfold processRow
    rw [if_pos h]
  · simp [List.contains]

/-- Witness for C6: a 4-cell row is stored with the positional mapping and
an empty examples cell; a 3-cell row is dropped. -/
theorem dictionary_row_acceptance_witness :
    processRow [] ["id", "string", "Yes", "Identifier"]
        = [("id", ⟨"string", true, "Identifier", ""⟩)]
      ∧ processRow [("x", ⟨"a", false, "b", "c"⟩)] ["only", "three", "cells"]
        = [("x", ⟨"a", false, "b", "c"⟩)] := by
  have h1 := (dictionary_row_acceptance [] ["id", "string", "Yes", "Identifier"]).2.1
    (by decide)
  have h2 := (dictionary_row_acceptance [("x", ⟨"a", false, "b", "c"⟩)]
    ["only", "three", "cells"]).1 (by decide)
  exact ⟨h1.trans (by rfl), h2⟩

/-! ## C7: `get_entity_dictionary` never raises -/

/-- **C7.** `get_entity_dictionary` is total: it returns the error record
exactly when the file is absent or the read raises, and otherwise the
parse result, which is always a well-formed `{overview, fields}` record
(the parser cannot fail). -/
theorem get_entity_dictionary_shape (schema_root entity_name : String)
    (fileExists : Bool) (readResult : Except PyExc String) :
    ((get_entity_dictionary schema_root entity_name fileExists readResult).isError
        = (!fileExists || match readResult with | .error _ => true | .ok _ => false))
    ∧ (∀ content, ∃ o f, parse_dictionary_markdown content = .ok o f)
    ∧ (fileExists = true → ∀ content, readResult = .ok content →
        get_entity_dictionary schema_root entity_name fileExists readResult
          = parse_dictionary_markdown content) := by
  refine ⟨?_, ?_, ?_⟩
  · rcases fileExists with _ | _
    · rfl
    · rcases readResult with e | c <;> rfl
  · intro content
    exact ⟨_, _, rfl⟩
  · intro hf content hr
    subst hf
    subst hr
    rfl

/-- Witness for C7 on a present, readable dictionary file. -/
theorem get_entity_dictionary_shape_witness :
    get_entity_dictionary "../schema" "TraceableUnit" true
        (.ok "### Overview\nHi\n")
      = parse_dictionary_markdown "### Overview\nHi\n" :=
  (get_entity_dictionary_shape "../schema" "TraceableUnit" true
    (.ok "### Overview\nHi\n")).2.2 rfl _ rfl

/-! ## C8: `validate_entity` converts exceptions into results -/

/-- **C8.** Exceptions from schema loading or from the validator are
converted by `validate_entity`'s `except` clauses into a result with
`valid=false, schema_valid=false, business_rules_valid=false` and a
descriptive message; nothing propagates. -/
theorem validate_entity_catches_exceptions
    (iterErrors : Json → Json → Except PyExc (List ValidationError))
    (readFullSchema : Except PyExc Json) (test_data : Json) :
    (∀ e : PyExc,
      validate_entity (.error e) iterErrors readFullSchema test_data = exception_result e)
    ∧ (∀ schema e, iterErrors schema test_data = .error e →
        validate_entity (.ok schema) iterErrors readFullSchema test_data
          = exception_result e)
    ∧ (∀ e, (exception_result e).valid = false
        ∧ (exception_result e).schema_valid = false
        ∧ (exception_result e).business_rules_valid = false)
    ∧ (∀ m, (exception_result (.fileNotFound m)).message = "Schema file not found"
        ∧ (exception_result (.other m)).message = "Validation error") := by
  refine ⟨fun e => rfl, ?_, ?_, fun m => ⟨rfl, rfl⟩⟩
  · intro schema e hi
    simp [validate_entity, hi]
  · intro e
    rcases e <;> exact ⟨rfl, rfl, rfl⟩

/-- Witness for C8: a validator that raises is converted into the generic
validation-error result. -/
theorem validate_entity_catches_exceptions_witness :
    validate_entity (.ok (Json.obj [])) (fun _ _ => .error (.other "boom"))
        (.ok (Json.obj [])) (Json.obj [])
      = exception_result (.other "boom") :=
  (validate_entity_catches_exceptions (fun _ _ => .error (.other "boom"))
    (.ok (Json.obj [])) (Json.obj [])).2.1 (Json.obj []) (.other "boom") rfl

/-! ## C9: `get_available_entities` ordering and contents -/

/-- **C9 (counterexample).** Two distinct schema-bearing directories can
map to the same PascalCase name, so the returned sequence is not strictly
sorted. -/
theorem available_entities_strict_sort_counterexample :
    get_available_entities true
        [⟨"foo_bar", true, true⟩, ⟨"foo__bar", true, true⟩]
        = ["FooBar", "FooBar"]
      ∧ ¬ List.Sorted (· < ·)
          (get_available_entities true
            [⟨"foo_bar", true, true⟩, ⟨"foo__bar", true, true⟩]) := by
  have hval : get_available_entities true
      [⟨"foo_bar", true, true⟩, ⟨"foo__bar", true, true⟩]
      = ["FooBar", "FooBar"] := by
    show List.insertionSort (· ≤ ·) ["FooBar", "FooBar"] = ["FooBar", "FooBar"]
    rw [List.insertionSort, List.insertionSort, List.insertionSort,
      List.orderedInsert, List.orderedInsert, if_pos le_rfl]
  refine ⟨hval, ?_⟩
  intro h
  rw [hval] at h
  have := (List.sorted_cons.mp h).1 "FooBar" (by simp)
  exact lt_irrefl _ this

/-- **C9 (amended).** `get_available_entities` returns a sequence sorted in
(non-strict) lexicographic order containing exactly the PascalCase names
of the immediate subdirectory entries that are directories holding a
`validation_schema.json` file. -/
theorem available_entities_sorted (rootExists : Bool) (items : List DirEntry) :
    List.Sorted (· ≤ ·) (get_available_entities rootExists items)
    ∧ (∀ n, n ∈ get_available_entities true items
        ↔ ∃ it, it ∈ items ∧ it.isDir = true ∧ it.hasValidationSchema = true
            ∧ toEntityName it.name = n) := by
  constructor
  · unfold get_available_entities pySorted
    exact List.sorted_insertionSort _ _
  · intro n
    show n ∈ List.insertionSort (· ≤ ·)
        ((items.filter (fun it => it.isDir && it.hasValidationSchema)).map
          (fun it => toEntityName it.name)) ↔ _
    rw [List.mem_insertionSort]
    simp only [List.mem_map, List.mem_filter, Bool.and_eq_true]
    constructor
    · rintro ⟨it, ⟨hmem, hdir, hschema⟩, rfl⟩
      exact ⟨it, hmem, hdir, hschema, rfl⟩
    · rintro ⟨it, hmem, hdir, hschema, rfl⟩
      exact ⟨it, ⟨hmem, hdir, hschema⟩, rfl⟩

/-! ## C10: the `/api/validate` handler rejects falsy payloads -/

/-- **C10.** The route handler returns the 400 `{error}` response exactly
when `entity_name` or `test_data` is missing or falsy (empty object,
empty string, `0`, `false`, `null`); consequently an empty test-data
object can never reach `validate_entity` through this endpoint, and a 200
response implies a truthy `test_data`. -/
theorem validate_route_rejects_falsy (loadSchema : Except PyExc Json)
    (iterErrors : Json → Json → Except PyExc (List ValidationError))
    (readFullSchema : Except PyExc Json) (kvs : List (String × Json)) :
    (validate_route (.ok (.obj kvs)) loadSchema iterErrors readFullSchema
        = ⟨.error "Missing entity_name or test_data", 400⟩
      ↔ (optTruthy (jsonGet (.obj kvs) "entity_name") = false
          ∨ optTruthy (jsonGet (.obj kvs) "test_data") = false))
    ∧ (jsonGet (.obj kvs) "test_data" = some (.obj []) →
        validate_route (.ok (.obj kvs)) loadSchema iterErrors readFullSchema
          = ⟨.error "Missing entity_name or test_data", 400⟩)
    ∧ (∀ r, validate_route (.ok (.obj kvs)) loadSchema iterErrors readFullSchema
          = ⟨.result r, 200⟩ →
        optTruthy (jsonGet (.obj kvs) "test_data") = true) := by
  refine ⟨?_, ?_, ?_⟩
  · rcases h1 : optTruthy (jsonGet (.obj kvs) "entity_name") with _ | _ <;>
      rcases h2 : optTruthy (jsonGet (.obj kvs) "test_data") with _ | _ <;>
        simp [validate_route, h1, h2]
  · intro hm
    have h2 : optTruthy (jsonGet (Json.obj kvs) "test_data") = false := by
      rw [hm]; rfl
    simp [validate_route, h2]
  · intro r hr
    rcases h2 : optTruthy (jsonGet (.obj kvs) "test_data") with _ | _
    · simp [validate_route, h2] at hr
    · rfl

/-- Witness for C10: a present-but-empty `test_data` object is rejected
with 400. -/
theorem validate_route_rejects_falsy_witness :
    validate_route
        (.ok (.obj [("entity_name", Json.str "Transaction"), ("test_data", Json.obj [])]))
        (.ok (Json.obj [])) (fun s d => .ok (draft7IterErrors s d)) (.ok (Json.obj []))
      = ⟨.error "Missing entity_name or test_data", 400⟩ :=
  (validate_route_rejects_falsy (.ok (Json.obj []))
    (fun s d => .ok (draft7IterErrors s d)) (.ok (Json.obj []))
    [("entity_name", Json.str "Transaction"), ("test_data", Json.obj [])]).2.1 rfl

end BoostSpec
